import Mathlib

/-!
Shallow embedding of `src/platforms/astbmc/common.c` (skiboot AST-BMC
platform glue): the device-tree repair helpers (`astbmc_fixup_dt_uart`,
`astbmc_fixup_dt_bt`, `astbmc_fixup_dt_i2cm`, `astbmc_fixup_dt`), the PSI
BAR register fixup (`astbmc_fixup_psi_bar`), the IPMI power-down facade
(`astbmc_ipmi_power_down`) and the UART-mode branch of
`astbmc_early_init`.

The device tree is modelled as a rose tree of nodes with named, typed
properties.  Services that live outside this source file (the device-tree
store primitives `dt_new` / `dt_new_addr`, the chip registry, the XSCOM
register service, the AST chip service) are modelled from the spec, as
noted on each definition.
-/

/- UART1 config (source lines 30-33). -/
def UART_IO_BASE : Nat := 0x3f8

def UART_IO_COUNT : Nat := 8

def UART_LPC_IRQ : Nat := 4

/- BT config (source lines 35-38). -/
def BT_IO_BASE : Nat := 0xe4

def BT_IO_COUNT : Nat := 3

def BT_LPC_IRQ : Nat := 10

/-- Hex digit list of `n`, most significant first, lower case (the C `%x`
format without padding). -/
def hexChars (n : Nat) : List Char :=
  Nat.toDigits 16 n

/-- `%x`-style rendering of a natural number. -/
def hexStr (n : Nat) : String :=
  String.mk (hexChars n)

/-- `%08x`-style rendering: zero-padded to `w` hex digits. -/
def hexStrPad (w n : Nat) : String :=
  String.mk (List.replicate (w - (hexChars n).length) '0' ++ hexChars n)

/-- A device-tree property value: a cell (integer) list or a string list,
never mixed (spec section 3). -/
inductive PropVal where
  | cells (vs : List Nat)
  | strings (ss : List String)
deriving DecidableEq

/-- A named property of a device-tree node. -/
structure DtProp where
  pname : String
  pval : PropVal
deriving DecidableEq

/-- A device-tree node: name, ordered property list, ordered children. -/
inductive DtNode where
  | mk (nodeName : String) (props : List DtProp) (children : List DtNode)

def DtNode.nodeName : DtNode → String
  | .mk n _ _ => n

def DtNode.props : DtNode → List DtProp
  | .mk _ p _ => p

def DtNode.children : DtNode → List DtNode
  | .mk _ _ c => c

/-- Look up a property by name in a property list (first match wins,
mirroring `dt_find_property`; property names are unique per node by the
data-model invariant). -/
def dt_find_property (ps : List DtProp) (nm : String) : Option PropVal :=
  (ps.find? (fun p => p.pname == nm)).map DtProp.pval

/-- Modelled from the spec: `dt_has_node_property` (declared outside this
file) — the node carries a property of that name. -/
def dt_props_has (ps : List DtProp) (nm : String) : Bool :=
  (dt_find_property ps nm).isSome

/-- Modelled from the spec: compatibility match on a property list — the
tag appears (as an entry) in the "compatible" string list
(`dt_node_is_compatible`, declared outside this file). -/
def propsCompatible (ps : List DtProp) (tag : String) : Bool :=
  match dt_find_property ps "compatible" with
  | some (.strings ss) => ss.contains tag
  | _ => false

/-- `dt_node_is_compatible node tag`. -/
def dt_node_is_compatible (n : DtNode) (tag : String) : Bool :=
  propsCompatible n.props tag

/-- Append a new child at the end of a node's child list (the store
attaches new nodes at the tail of the parent's child list). -/
def appendChild (c : DtNode) : DtNode → DtNode
  | .mk nm ps cs => .mk nm ps (cs ++ [c])

mutual

/-- Whole-tree compatibility scan, preorder: does any node of the tree
match the tag?  (`dt_find_compatible_node(root, NULL, tag) != NULL`.) -/
def dt_tree_has_compatible (tag : String) : DtNode → Bool
  | .mk _ ps cs => propsCompatible ps tag || dt_list_has_compatible tag cs

def dt_list_has_compatible (tag : String) : List DtNode → Bool
  | [] => false
  | c :: cs => dt_tree_has_compatible tag c || dt_list_has_compatible tag cs

end

mutual

/-- Preorder traversal of a tree, pairing each node with its path (list of
child indices from the root).  `dt_for_each_compatible` filters this
sequence. -/
def dt_preorder (path : List Nat) : DtNode → List (List Nat × DtNode)
  | .mk nm ps cs => (path, .mk nm ps cs) :: dt_preorder_children path 0 cs

def dt_preorder_children (path : List Nat) (i : Nat) :
    List DtNode → List (List Nat × DtNode)
  | [] => []
  | c :: cs => dt_preorder (path ++ [i]) c ++ dt_preorder_children path (i + 1) cs

end

/-- `dt_for_each_compatible(dt_root, n, tag)`: the compatible nodes of the
tree in traversal order, each with its path. -/
def dt_for_each_compatible (t : DtNode) (tag : String) :
    List (List Nat × DtNode) :=
  (dt_preorder [] t).filter (fun pn => dt_node_is_compatible pn.2 tag)

/-- Rewrite the child at index `i` with `f`; out-of-range indices leave
the list unchanged. -/
def modifyChildAt (f : DtNode → DtNode) : Nat → List DtNode → List DtNode
  | _, [] => []
  | 0, c :: cs => f c :: cs
  | i + 1, c :: cs => c :: modifyChildAt f i cs

/-- Rewrite the node at `path` (a list of child indices) with `f`; an
invalid path leaves the tree unchanged. -/
def modifyAt (f : DtNode → DtNode) : List Nat → DtNode → DtNode
  | [], n => f n
  | i :: p, .mk nm ps cs => .mk nm ps (modifyChildAt (modifyAt f p) i cs)

/-- The UART node built by `astbmc_fixup_dt_uart` (source lines 122-149):
name `serial@i3f8`, properties in insertion order.  `chipId` stands for
`dt_get_chip_id(lpc)`, the identifier of the chip owning the parent bus
node (modelled from the spec as a parameter, the chip registry being
outside this file). -/
def uartNodeFor (chipId : Nat) : DtNode :=
  .mk ("serial@i" ++ hexStr UART_IO_BASE)
    [⟨"reg", .cells [1, UART_IO_BASE, UART_IO_COUNT]⟩,
     ⟨"compatible", .strings ["ns16550", "pnpPNP,501"]⟩,
     ⟨"clock-frequency", .cells [1843200]⟩,
     ⟨"current-speed", .cells [115200]⟩,
     ⟨"device_type", .strings ["serial"]⟩,
     ⟨"ibm,irq-chip-id", .cells [chipId]⟩]
    []

/-- `astbmc_fixup_dt_uart(lpc)` (source lines 102-150): if some direct
child of the bus node is compatible with "ns16550", return the node
unchanged; otherwise attach the UART child.  (`dt_new` is modelled from
the spec as appending a child to the parent; the source does not check
its result here.) -/
def astbmc_fixup_dt_uart (chipId : Nat) (lpc : DtNode) : DtNode :=
  if lpc.children.any (fun c => dt_node_is_compatible c "ns16550") then lpc
  else appendChild (uartNodeFor chipId) lpc

/-- The BT node built by `astbmc_fixup_dt_bt` (source lines 90-99): name
`ipmi-bt@ie4`, compatible "ipmi-bt", status "reserved". -/
def btNode : DtNode :=
  .mk ("ipmi-bt@i" ++ hexStr BT_IO_BASE)
    [⟨"reg", .cells [1, BT_IO_BASE, BT_IO_COUNT]⟩,
     ⟨"compatible", .strings ["ipmi-bt"]⟩,
     ⟨"status", .strings ["reserved"]⟩]
    []

/-- `astbmc_fixup_dt_bt(lpc)` (source lines 79-100): if some direct child
of the bus node is compatible with "bt", return unchanged; otherwise
attach the BT child. -/
def astbmc_fixup_dt_bt (lpc : DtNode) : DtNode :=
  if lpc.children.any (fun c => dt_node_is_compatible c "bt") then lpc
  else appendChild btNode lpc

/-- `dt_create_i2c_master(n, eng_id)` (source lines 152-171), detached
from its parent: the node it would attach under `n`.  `ok` is the
underlying store's allocation outcome for `dt_new_addr` (modelled from
the spec: node creation may fail with "no node" on resource exhaustion,
in which case the function returns NULL). -/
def dt_create_i2c_master (ok : Bool) (eng_id : Nat) : Option DtNode :=
  if ok then
    some (.mk ("i2cm@" ++ hexStr (0xa0000 + eng_id * 0x20))
      [⟨"compatible", .strings ["ibm,power8-i2cm"]⟩,
       ⟨"reg", .cells [0xa0000 + eng_id * 0x20, 0x20]⟩,
       ⟨"clock-frequency", .cells [50000000]⟩,
       ⟨"chip-engine#", .cells [eng_id]⟩,
       ⟨"#address-cells", .cells [1]⟩,
       ⟨"#size-cells", .cells [0]⟩]
      [])
  else none

/-- `dt_create_i2c_bus(i2cm, port_name, port_id)` (source lines 173-191),
detached from its parent. -/
def dt_create_i2c_bus (ok : Bool) (port_name : String) (port_id : Nat) :
    Option DtNode :=
  if ok then
    some (.mk ("i2c-bus@" ++ hexStr port_id)
      [⟨"compatible", .strings ["ibm,power8-i2c-port", "ibm,opal-i2c"]⟩,
       ⟨"ibm,port-name", .strings [port_name]⟩,
       ⟨"reg", .cells [port_id]⟩,
       ⟨"bus-frequency", .cells [400000]⟩,
       ⟨"#address-cells", .cells [1]⟩,
       ⟨"#size-cells", .cells [0]⟩]
      [])
  else none

/-- `dt_create_i2c_device(bus, addr, name, compat, label)` (source lines
193-209), detached from its parent. -/
def dt_create_i2c_device (ok : Bool) (addr : Nat) (nm compat label : String) :
    Option DtNode :=
  if ok then
    some (.mk (nm ++ "@" ++ hexStr addr)
      [⟨"compatible", .strings [compat]⟩,
       ⟨"label", .strings [label]⟩,
       ⟨"reg", .cells [addr]⟩,
       ⟨"status", .strings ["ok"]⟩]
      [])
  else none

/-- Modelled from the spec: an entry of the chip registry (outside this
file).  `devnodePath` locates the chip's device-tree node (`c->devnode`)
inside the tree. -/
structure ProcChip where
  id : Nat
  devnodePath : List Nat
deriving DecidableEq

/-- Modelled from the spec: `get_chip(id)` — get a chip by id from the
registry. -/
def get_chip (chips : List ProcChip) (i : Nat) : Option ProcChip :=
  chips.find? (fun c => c.id == i)

/-- Modelled from the spec: `next_chip(NULL)` — the first enumerated
chip, or none when the registry is empty. -/
def next_chip_first (chips : List ProcChip) : Option ProcChip :=
  chips.head?

/-- The `sprintf(name, "p8_%08x_e%dp%d", c->id, eng, port)` port-name
string (source lines 230 and 233). -/
def i2cPortName (chipId eng port : Nat) : String :=
  "p8_" ++ hexStrPad 8 chipId ++ "_e" ++ Nat.repr eng ++ "p" ++ Nat.repr port

/-- Outcome of a device-tree fixup step: the updated tree, or an abort
via a failed `assert`. -/
inductive FixupResult where
  | ok (t : DtNode)
  | aborted

/-- `astbmc_fixup_dt_i2cm()` (source lines 211-238) over the whole tree.

`alloc k` is the store's allocation outcome for the k-th `dt_new_addr`
call of this run (0 = master, 1 = bus port 0, 2 = bus port 2, 3 = eeprom
device); modelled from the spec, node creation being outside this file.

Faithful to the source: the results of the master and of both bus
creations are `assert`ed, but the result of `dt_create_i2c_device` is
discarded — the following `assert(bus)` re-checks the bus pointer, so a
failed device creation does not abort and simply leaves the device out. -/
def astbmc_fixup_dt_i2cm (alloc : Nat → Bool) (chips : List ProcChip)
    (t : DtNode) : FixupResult :=
  if dt_tree_has_compatible "ibm,power8-i2cm" t then .ok t
  else
    match get_chip chips 0 with
    | none => .aborted
    | some c =>
      match dt_create_i2c_master (alloc 0) 1 with
      | none => .aborted
      | some master =>
        match dt_create_i2c_bus (alloc 1) (i2cPortName c.id 1 0) 0 with
        | none => .aborted
        | some bus0 =>
          match dt_create_i2c_bus (alloc 2) (i2cPortName c.id 1 2) 2 with
          | none => .aborted
          | some bus2 =>
            let bus2' :=
              match dt_create_i2c_device (alloc 3) 0x50 "eeprom"
                  "atmel,24c64" "system-vpd" with
              | none => bus2
              | some dev => appendChild dev bus2
            .ok (modifyAt
              (appendChild (appendChild bus2' (appendChild bus0 master)))
              c.devnodePath t)

/-- The primary-LPC-bus selection loop of `astbmc_fixup_dt` (source lines
244-250): first compatible node is provisional, a later node with a
"primary" property replaces it, and the scan stops at the first node with
an "#address-cells" property. -/
def select_primary_lpc_loop (acc : Option (List Nat × DtNode)) :
    List (List Nat × DtNode) → Option (List Nat × DtNode)
  | [] => acc
  | n :: rest =>
    let acc' := if acc.isNone || dt_props_has n.2.props "primary" then some n else acc
    if dt_props_has n.2.props "#address-cells" then acc'
    else select_primary_lpc_loop acc' rest

/-- The primary-bus selector: scan the "ibm,power8-lpc"-compatible nodes
of the tree in traversal order. -/
def select_primary_lpc_bus (t : DtNode) : Option (List Nat × DtNode) :=
  select_primary_lpc_loop none (dt_for_each_compatible t "ibm,power8-lpc")

/-- `astbmc_fixup_dt()` (source lines 240-263): find the primary LPC bus;
if none, return (leaving the tree unchanged); otherwise fix up the UART
and then the BT node under it, and then add the i2c masters.  `getChipId`
stands for `dt_get_chip_id` (modelled from the spec as an opaque query of
the chip owning a node). -/
def astbmc_fixup_dt (alloc : Nat → Bool) (chips : List ProcChip)
    (getChipId : DtNode → Nat) (t : DtNode) : FixupResult :=
  match select_primary_lpc_bus t with
  | none => .ok t
  | some (path, lpcNode) =>
    let t1 := modifyAt (astbmc_fixup_dt_uart (getChipId lpcNode)) path t
    let t2 := modifyAt astbmc_fixup_dt_bt path t1
    astbmc_fixup_dt_i2cm alloc chips t2

/-- An operation performed against the XSCOM register service (modelled
from the spec: scoped register access is outside this file). -/
inductive XscomOp where
  | rd (chip addr : Nat)
  | wr (chip addr value : Nat)
deriving DecidableEq

/-- Outcome of `astbmc_fixup_psi_bar`. -/
inductive PsiBarResult where
  | nullDeref
  | readError
  | alreadyConfigured
  | wrote
deriving DecidableEq

/-- The PSI BAR XSCOM address (source line 271). -/
def PSI_BAR_XSCOM_ADDR : Nat := 0x201090A

/-- The hard-wired PSI BAR value (source line 280). -/
def PSI_BAR_VALUE : Nat := 0x3fffe80000001

/-- `astbmc_fixup_psi_bar()` (source lines 265-287): take the first chip
from the registry — dereferenced without a null check, modelled as the
`nullDeref` outcome when the registry is empty — read the PSI BAR; on
read failure report and return; if bit 0 is set return; otherwise write
the fixed value.  `xread chip addr` is the register service's read
outcome (modelled from the spec: `none` = failure).  The returned list is
the trace of register operations performed. -/
def astbmc_fixup_psi_bar (chips : List ProcChip)
    (xread : Nat → Nat → Option Nat) : PsiBarResult × List XscomOp :=
  match next_chip_first chips with
  | none => (.nullDeref, [])
  | some chip =>
    match xread chip.id PSI_BAR_XSCOM_ADDR with
    | none => (.readError, [.rd chip.id PSI_BAR_XSCOM_ADDR])
    | some psibar =>
      if psibar % 2 = 1 then
        (.alreadyConfigured, [.rd chip.id PSI_BAR_XSCOM_ADDR])
      else
        (.wrote, [.rd chip.id PSI_BAR_XSCOM_ADDR,
                  .wr chip.id PSI_BAR_XSCOM_ADDR PSI_BAR_VALUE])

/-- Modelled from the spec: the expected "power down" chassis-control
code (`IPMI_CHASSIS_PWR_DOWN`, declared outside this file). -/
def IPMI_CHASSIS_PWR_DOWN : Nat := 0

/-- Observable outcome of `astbmc_ipmi_power_down`: whether the warning
was logged, the code handed to the transport's chassis-control
primitive, and the returned result code. -/
structure PowerDownOutcome where
  warned : Bool
  calledWith : Nat
  result : Int

/-- `astbmc_ipmi_power_down(request)` (source lines 64-72): warn when the
request is not the expected power-down code, then forward the request to
`ipmi_chassis_control` (modelled from the spec as the opaque function
`cc`) and relay its result. -/
def astbmc_ipmi_power_down (cc : Nat → Int) (request : Nat) :
    PowerDownOutcome :=
  ⟨request != IPMI_CHASSIS_PWR_DOWN, request, cc request⟩

/-- Modelled from the spec: the calls into the AST chip service made by
the UART branch of `astbmc_early_init`. -/
inductive AstUartAction where
  | disableSioUart1
  | setupVuart1 (base irq : Nat)
  | setupSioUart1 (base irq : Nat)
deriving DecidableEq

/-- The UART-mode branch of `astbmc_early_init` (source lines 309-316):
when the virtual UART is enabled, disable the SIO UART and set up the
VUART at the fixed base/IRQ; otherwise set up the SIO UART at the same
constants. -/
def astbmc_uart_mode_step (vuartEnabled : Bool) : List AstUartAction :=
  if vuartEnabled then
    [.disableSioUart1, .setupVuart1 UART_IO_BASE UART_LPC_IRQ]
  else
    [.setupSioUart1 UART_IO_BASE UART_LPC_IRQ]

/-- The externally observable (base, irq) pair a UART action list leaves
the UART configured at: the last setup action's arguments. -/
def uartConfiguredAt (acts : List AstUartAction) : Option (Nat × Nat) :=
  acts.foldl
    (fun acc a =>
      match a with
      | .setupVuart1 b i => some (b, i)
      | .setupSioUart1 b i => some (b, i)
      | .disableSioUart1 => acc)
    none

/-- Is this register operation a write? -/
def isWriteOp : XscomOp → Bool
  | .wr _ _ _ => true
  | .rd _ _ => false

/-- The chip a register operation is scoped to. -/
def xscomOpChip : XscomOp → Nat
  | .rd ch _ => ch
  | .wr ch _ _ => ch

/-- The eeprom device node as built by an all-successful run of
`astbmc_fixup_dt_i2cm` (via `dt_create_i2c_device`). -/
def eepromNodeBuilt : DtNode :=
  .mk ("eeprom" ++ "@" ++ hexStr 0x50)
    [⟨"compatible", .strings ["atmel,24c64"]⟩,
     ⟨"label", .strings ["system-vpd"]⟩,
     ⟨"reg", .cells [0x50]⟩,
     ⟨"status", .strings ["ok"]⟩]
    []

/-- The port-0 i2c bus node as built by the fixup for chip id `cid`. -/
def i2cBus0Built (cid : Nat) : DtNode :=
  .mk ("i2c-bus@" ++ hexStr 0)
    [⟨"compatible", .strings ["ibm,power8-i2c-port", "ibm,opal-i2c"]⟩,
     ⟨"ibm,port-name", .strings [i2cPortName cid 1 0]⟩,
     ⟨"reg", .cells [0]⟩,
     ⟨"bus-frequency", .cells [400000]⟩,
     ⟨"#address-cells", .cells [1]⟩,
     ⟨"#size-cells", .cells [0]⟩]
    []

/-- The port-2 i2c bus node as built by the fixup for chip id `cid`, with
child list `cs` (the eeprom device when its creation succeeded). -/
def i2cBus2Built (cid : Nat) (cs : List DtNode) : DtNode :=
  .mk ("i2c-bus@" ++ hexStr 2)
    [⟨"compatible", .strings ["ibm,power8-i2c-port", "ibm,opal-i2c"]⟩,
     ⟨"ibm,port-name", .strings [i2cPortName cid 1 2]⟩,
     ⟨"reg", .cells [2]⟩,
     ⟨"bus-frequency", .cells [400000]⟩,
     ⟨"#address-cells", .cells [1]⟩,
     ⟨"#size-cells", .cells [0]⟩]
    cs

/-- The engine-1 i2c master node as built by the fixup, with child list
`cs` (its two bus nodes). -/
def i2cmMasterBuilt (cs : List DtNode) : DtNode :=
  .mk ("i2cm@" ++ hexStr 0xa0020)
    [⟨"compatible", .strings ["ibm,power8-i2cm"]⟩,
     ⟨"reg", .cells [0xa0020, 0x20]⟩,
     ⟨"clock-frequency", .cells [50000000]⟩,
     ⟨"chip-engine#", .cells [1]⟩,
     ⟨"#address-cells", .cells [1]⟩,
     ⟨"#size-cells", .cells [0]⟩]
    cs

/-- Concrete test tree: a root whose only child is chip 0's devnode; no
node is compatible with anything. -/
def sampleTreeNoLpc : DtNode := .mk "root" [] [.mk "xscom@0" [] []]

/-- Concrete chip registry: exactly chip 0, its devnode the root's first
child. -/
def sampleChips : List ProcChip := [⟨0, [0]⟩]

/-- Concrete bare LPC bus node with no children. -/
def emptyLpcNode : DtNode := .mk "lpc" [] []

theorem dt_list_has_compatible_append (tag : String) (xs ys : List DtNode) :
    dt_list_has_compatible tag (xs ++ ys)
      = (dt_list_has_compatible tag xs || dt_list_has_compatible tag ys) := by
  induction xs with
  | nil => simp [dt_list_has_compatible]
  | cons c cs ih => simp [dt_list_has_compatible, ih, Bool.or_assoc]

theorem dt_tree_has_compatible_mk (tag : String) (nm : String)
    (ps : List DtProp) (cs : List DtNode)
    (h : propsCompatible ps tag = true) :
    dt_tree_has_compatible tag (.mk nm ps cs) = true := by
  simp [dt_tree_has_compatible, h]

theorem dt_tree_has_compatible_appendChild_parent (tag : String) (s t : DtNode)
    (h : dt_tree_has_compatible tag t = true) :
    dt_tree_has_compatible tag (appendChild s t) = true := by
  cases t with
  | mk nm ps cs =>
    simp only [appendChild, dt_tree_has_compatible,
      dt_list_has_compatible_append, Bool.or_eq_true] at h ⊢
    rcases h with h | h
    · exact Or.inl h
    · exact Or.inr (Or.inl h)

theorem modifyChildAt_compat (tag : String) (g : DtNode → DtNode)
    (H : ∀ c, g c = c ∨ dt_tree_has_compatible tag (g c) = true) :
    ∀ (i : Nat) (cs : List DtNode),
      modifyChildAt g i cs = cs
        ∨ dt_list_has_compatible tag (modifyChildAt g i cs) = true := by
  intro i cs
  induction cs generalizing i with
  | nil => left; cases i <;> rfl
  | cons c cs ih =>
    cases i with
    | zero =>
      rcases H c with h | h
      · left; simp [modifyChildAt, h]
      · right; simp [modifyChildAt, dt_list_has_compatible, h]
    | succ j =>
      rcases ih j with h | h
      · left; simp [modifyChildAt, h]
      · right; simp [modifyChildAt, dt_list_has_compatible, h]

theorem modifyAt_appendChild_compat (tag : String) (s : DtNode)
    (hs : dt_tree_has_compatible tag s = true) :
    ∀ (p : List Nat) (t : DtNode),
      modifyAt (appendChild s) p t = t
        ∨ dt_tree_has_compatible tag (modifyAt (appendChild s) p t) = true := by
  intro p
  induction p with
  | nil =>
    intro t
    right
    cases t with
    | mk nm ps cs =>
      simp [modifyAt, appendChild, dt_tree_has_compatible,
        dt_list_has_compatible_append, dt_list_has_compatible, hs]
  | cons i p ih =>
    intro t
    cases t with
    | mk nm ps cs =>
      rcases modifyChildAt_compat tag (modifyAt (appendChild s) p) ih i cs with h | h
      · left; simp [modifyAt, h]
      · right; simp [modifyAt, dt_tree_has_compatible, h]

/-- If one run of the i2c fixup produced `t'` by inserting a subtree `s`
that contains an "ibm,power8-i2cm"-compatible node, a second run on `t'`
returns `t'` unchanged. -/
theorem i2cm_stable_of_insert (alloc : Nat → Bool) (chips : List ProcChip)
    (t t' s : DtNode) (p : List Nat)
    (hs : dt_tree_has_compatible "ibm,power8-i2cm" s = true)
    (ht : modifyAt (appendChild s) p t = t')
    (h0 : astbmc_fixup_dt_i2cm alloc chips t = .ok t') :
    astbmc_fixup_dt_i2cm alloc chips t' = .ok t' := by
  rcases modifyAt_appendChild_compat _ s hs p t with hid | hcomp
  · rw [hid] at ht; subst ht; exact h0
  · rw [ht] at hcomp; rw [astbmc_fixup_dt_i2cm, if_pos hcomp]

/-- `astbmc_fixup_dt_uart` is idempotent: the node it creates is itself
compatible with "ns16550", so a second run detects it. -/
theorem astbmc_fixup_dt_uart_idem (chipId : Nat) (lpc : DtNode) :
    astbmc_fixup_dt_uart chipId (astbmc_fixup_dt_uart chipId lpc)
      = astbmc_fixup_dt_uart chipId lpc := by
  cases lpc with
  | mk nm ps cs =>
    by_cases h : cs.any (fun c => dt_node_is_compatible c "ns16550") = true
    · simp [astbmc_fixup_dt_uart, DtNode.children, h]
    · simp only [astbmc_fixup_dt_uart, DtNode.children, h]
      simp [appendChild, DtNode.children, h, List.any_append,
        dt_node_is_compatible, DtNode.props, uartNodeFor, propsCompatible,
        dt_find_property, List.find?]

/-- `astbmc_fixup_dt_bt` is a no-op (hence trivially idempotent) when a
"bt"-compatible child is already present. -/
theorem astbmc_fixup_dt_bt_idem_of_present (lpc : DtNode)
    (h : lpc.children.any (fun c => dt_node_is_compatible c "bt") = true) :
    astbmc_fixup_dt_bt (astbmc_fixup_dt_bt lpc) = astbmc_fixup_dt_bt lpc := by
  simp [astbmc_fixup_dt_bt, h]

/-- Rerunning `astbmc_fixup_dt_i2cm` on the tree produced by a completed
run returns that tree unchanged. -/
theorem astbmc_fixup_dt_i2cm_stable (alloc : Nat → Bool)
    (chips : List ProcChip) (t t' : DtNode)
    (h : astbmc_fixup_dt_i2cm alloc chips t = .ok t') :
    astbmc_fixup_dt_i2cm alloc chips t' = .ok t' := by
  have h0 := h
  by_cases hc : dt_tree_has_compatible "ibm,power8-i2cm" t = true
  · rw [astbmc_fixup_dt_i2cm, if_pos hc] at h
    injection h with h
    subst h
    rw [astbmc_fixup_dt_i2cm, if_pos hc]
  · rw [astbmc_fixup_dt_i2cm, if_neg hc] at h
    cases hg : get_chip chips 0 with
    | none => rw [hg] at h; exact absurd h (by simp)
    | some c =>
      rw [hg] at h
      cases ha0 : alloc 0 with
      | false => rw [ha0] at h; simp [dt_create_i2c_master] at h
      | true =>
        rw [ha0] at h
        cases ha1 : alloc 1 with
        | false => rw [ha1] at h; simp [dt_create_i2c_master, dt_create_i2c_bus] at h
        | true =>
          rw [ha1] at h
          cases ha2 : alloc 2 with
          | false => rw [ha2] at h; simp [dt_create_i2c_master, dt_create_i2c_bus] at h
          | true =>
            rw [ha2] at h
            cases ha3 : alloc 3 with
            | false =>
              rw [ha3] at h
              simp only [dt_create_i2c_master, dt_create_i2c_bus,
                dt_create_i2c_device, Bool.false_eq_true, ite_true, ite_false,
                if_true, if_false] at h
              injection h with ht
              refine i2cm_stable_of_insert alloc chips t t' _ c.devnodePath ?_ ht h0
              apply dt_tree_has_compatible_appendChild_parent
              apply dt_tree_has_compatible_appendChild_parent
              apply dt_tree_has_compatible_mk
              decide
            | true =>
              rw [ha3] at h
              simp only [dt_create_i2c_master, dt_create_i2c_bus,
                dt_create_i2c_device, ite_true, ite_false, if_true, if_false] at h
              injection h with ht
              refine i2cm_stable_of_insert alloc chips t t' _ c.devnodePath ?_ ht h0
              apply dt_tree_has_compatible_appendChild_parent
              apply dt_tree_has_compatible_appendChild_parent
              apply dt_tree_has_compatible_mk
              decide

/-- Claim C1 (counterexample): a tree with no "ibm,power8-lpc"-compatible
node, where chip 0 exists and no i2c master is present — the claim's
conditions — yet `astbmc_fixup_dt` returns the tree unchanged: the i2c
subtree is NOT created (the source returns before `astbmc_fixup_dt_i2cm`
when no primary LPC bus is found), although `astbmc_fixup_dt_i2cm` run by
itself on the same state would create it (last conjunct). -/
theorem claim_C1_counterexample :
    select_primary_lpc_bus sampleTreeNoLpc = none
  ∧ dt_tree_has_compatible "ibm,power8-i2cm" sampleTreeNoLpc = false
  ∧ get_chip sampleChips 0 = some ⟨0, [0]⟩
  ∧ astbmc_fixup_dt (fun _ => true) sampleChips (fun _ => 0) sampleTreeNoLpc
      = .ok sampleTreeNoLpc
  ∧ (∃ t', astbmc_fixup_dt_i2cm (fun _ => true) sampleChips sampleTreeNoLpc = .ok t'
       ∧ dt_tree_has_compatible "ibm,power8-i2cm" t' = true) := by
  refine ⟨rfl, by decide, by decide, rfl, ⟨_, rfl, by decide⟩⟩

/-- Claim C1 (amended): when the primary-bus selector returns none,
`astbmc_fixup_dt` returns immediately with the tree unchanged — all three
syntheses, `ensure_i2c_topology` included, are skipped, for every
allocator, chip registry and chip-id oracle. -/
theorem claim_C1_amended (alloc : Nat → Bool) (chips : List ProcChip)
    (getChipId : DtNode → Nat) (t : DtNode)
    (h : select_primary_lpc_bus t = none) :
    astbmc_fixup_dt alloc chips getChipId t = .ok t := by
  simp [astbmc_fixup_dt, h]

/-- Claim C1 (witness): the amended early-return theorem applied at the
concrete no-LPC tree. -/
theorem claim_C1_witness :
    astbmc_fixup_dt (fun _ => true) sampleChips (fun _ => 0) sampleTreeNoLpc
      = .ok sampleTreeNoLpc :=
  claim_C1_amended (fun _ => true) sampleChips (fun _ => 0) sampleTreeNoLpc rfl

/-- Claim C2 (counterexample): the BT synthesis is not idempotent on a bus
with no "bt"-compatible child: the node it creates carries compatible
"ipmi-bt" while the detection scan looks for "bt", so the second
invocation does not detect it and creates again — the tree after two
invocations differs from the tree after one. -/
theorem claim_C2_counterexample :
    astbmc_fixup_dt_bt (astbmc_fixup_dt_bt emptyLpcNode)
      ≠ astbmc_fixup_dt_bt emptyLpcNode := by
  intro h
  exact absurd (congrArg (fun n => n.children.length) h) (by decide)

/-- Claim C2 (amended): `astbmc_fixup_dt_uart` is idempotent for every
tree, and rerunning `astbmc_fixup_dt_i2cm` on the tree a completed run
produced returns it unchanged; `astbmc_fixup_dt_bt`, however, is
idempotent only when the bus node already has a "bt"-compatible child
(its detection scans for "bt" but the node it creates is compatible
"ipmi-bt" only). -/
theorem claim_C2_amended :
    (∀ (chipId : Nat) (lpc : DtNode),
      astbmc_fixup_dt_uart chipId (astbmc_fixup_dt_uart chipId lpc)
        = astbmc_fixup_dt_uart chipId lpc)
  ∧ (∀ lpc : DtNode,
      lpc.children.any (fun c => dt_node_is_compatible c "bt") = true →
      astbmc_fixup_dt_bt (astbmc_fixup_dt_bt lpc) = astbmc_fixup_dt_bt lpc)
  ∧ (∀ (alloc : Nat → Bool) (chips : List ProcChip) (t t' : DtNode),
      astbmc_fixup_dt_i2cm alloc chips t = .ok t' →
      astbmc_fixup_dt_i2cm alloc chips t' = .ok t') :=
  ⟨astbmc_fixup_dt_uart_idem, astbmc_fixup_dt_bt_idem_of_present,
   astbmc_fixup_dt_i2cm_stable⟩

/-- Claim C2 (witness): the amended idempotency facts at concrete inputs —
the UART fixup on a bare bus, the BT fixup on a bus already holding a
"bt"-compatible child, and a second i2c fixup on the tree the first one
built. -/
theorem claim_C2_witness :
    astbmc_fixup_dt_uart 7 (astbmc_fixup_dt_uart 7 emptyLpcNode)
      = astbmc_fixup_dt_uart 7 emptyLpcNode
  ∧ astbmc_fixup_dt_bt
      (astbmc_fixup_dt_bt (.mk "lpc" [] [.mk "bt@ie4" [⟨"compatible", .strings ["bt"]⟩] []]))
      = astbmc_fixup_dt_bt (.mk "lpc" [] [.mk "bt@ie4" [⟨"compatible", .strings ["bt"]⟩] []])
  ∧ astbmc_fixup_dt_i2cm (fun _ => true) sampleChips
      (.mk "root" [] [.mk "xscom@0" [] [i2cmMasterBuilt [i2cBus0Built 0, i2cBus2Built 0 [eepromNodeBuilt]]]])
      = .ok (.mk "root" [] [.mk "xscom@0" [] [i2cmMasterBuilt [i2cBus0Built 0, i2cBus2Built 0 [eepromNodeBuilt]]]]) :=
  ⟨claim_C2_amended.1 7 emptyLpcNode,
   claim_C2_amended.2.1 (.mk "lpc" [] [.mk "bt@ie4" [⟨"compatible", .strings ["bt"]⟩] []]) (by decide),
   claim_C2_amended.2.2 (fun _ => true) sampleChips sampleTreeNoLpc _ rfl⟩

/-- Claim C3 (code bug): at the concrete no-i2c tree with chip 0 present,
an allocation failure at the master or at either bus node aborts
(`assert`), but an allocation failure at the eeprom device node does NOT
abort — the source discards `dt_create_i2c_device`'s result and re-runs
`assert(bus)` on the already-checked bus pointer — leaving a partial
subtree (master and buses present, no "atmel,24c64" device) with
execution continuing. -/
theorem claim_C3_bug :
    astbmc_fixup_dt_i2cm (fun n => n != 0) sampleChips sampleTreeNoLpc = .aborted
  ∧ astbmc_fixup_dt_i2cm (fun n => n != 1) sampleChips sampleTreeNoLpc = .aborted
  ∧ astbmc_fixup_dt_i2cm (fun n => n != 2) sampleChips sampleTreeNoLpc = .aborted
  ∧ (∃ t', astbmc_fixup_dt_i2cm (fun n => n != 3) sampleChips sampleTreeNoLpc = .ok t'
       ∧ dt_tree_has_compatible "atmel,24c64" t' = false
       ∧ dt_tree_has_compatible "ibm,power8-i2cm" t' = true) := by
  refine ⟨rfl, rfl, rfl, ⟨_, rfl, by decide, by decide⟩⟩

/-- Claim C4: the primary-bus tie-break.  First: among three compatible
leaf nodes where the first has no "#address-cells" and only the second
carries "primary", the selector returns the second.  Second: when the
first compatible node carries "#address-cells" (and the next sibling is
an arbitrary subtree), the selector returns the first without inspecting
anything later. -/
theorem claim_C4 :
    (∀ (nm1 nm2 nm3 : String) (ps1 ps2 ps3 : List DtProp),
      propsCompatible ps1 "ibm,power8-lpc" = true →
      propsCompatible ps2 "ibm,power8-lpc" = true →
      propsCompatible ps3 "ibm,power8-lpc" = true →
      dt_props_has ps1 "#address-cells" = false →
      dt_props_has ps2 "primary" = true →
      dt_props_has ps3 "primary" = false →
      select_primary_lpc_bus
          (.mk "root" [] [.mk nm1 ps1 [], .mk nm2 ps2 [], .mk nm3 ps3 []])
        = some ([1], .mk nm2 ps2 []))
  ∧ (∀ (nm1 : String) (ps1 : List DtProp) (n2 : DtNode),
      propsCompatible ps1 "ibm,power8-lpc" = true →
      dt_props_has ps1 "#address-cells" = true →
      select_primary_lpc_bus (.mk "root" [] [.mk nm1 ps1 [], n2])
        = some ([0], .mk nm1 ps1 [])) := by
  have hroot : propsCompatible [] "ibm,power8-lpc" = false := rfl
  constructor
  · intro nm1 nm2 nm3 ps1 ps2 ps3 h1 h2 h3 ha1 hp2 hp3
    simp only [select_primary_lpc_bus, dt_for_each_compatible, dt_preorder,
      dt_preorder_children, dt_node_is_compatible, DtNode.props, List.filter,
      List.append_nil, List.nil_append, List.cons_append, h1, h2, h3, hroot]
    norm_num
    cases ha2 : dt_props_has ps2 "#address-cells" <;>
      cases ha3 : dt_props_has ps3 "#address-cells" <;>
        simp [select_primary_lpc_loop, DtNode.props, ha1, hp2, hp3, ha2, ha3]
  · intro nm1 ps1 n2 h1 ha1
    cases n2 with
    | mk nm2 ps2 cs2 =>
      simp only [select_primary_lpc_bus, dt_for_each_compatible, dt_preorder,
        dt_preorder_children, dt_node_is_compatible, DtNode.props,
        List.filter_append, List.filter, List.append_nil, List.nil_append,
        List.cons_append, h1, hroot]
      cases hrest : List.filter
          (fun pn => propsCompatible pn.2.props "ibm,power8-lpc")
          (dt_preorder [1] (DtNode.mk nm2 ps2 cs2)) <;>
        simp [select_primary_lpc_loop, DtNode.props, ha1]

/-- Claim C4 (witness): both tie-break scenarios at concrete nodes; in the
second, the skipped sibling even carries a "primary" marker and is still
not consulted. -/
theorem claim_C4_witness :
    select_primary_lpc_bus
        (.mk "root" []
          [.mk "lpc0" [⟨"compatible", .strings ["ibm,power8-lpc"]⟩] [],
           .mk "lpc1" [⟨"compatible", .strings ["ibm,power8-lpc"]⟩, ⟨"primary", .cells []⟩] [],
           .mk "lpc2" [⟨"compatible", .strings ["ibm,power8-lpc"]⟩] []])
      = some ([1], .mk "lpc1" [⟨"compatible", .strings ["ibm,power8-lpc"]⟩, ⟨"primary", .cells []⟩] [])
  ∧ select_primary_lpc_bus
        (.mk "root" []
          [.mk "lpc0" [⟨"compatible", .strings ["ibm,power8-lpc"]⟩, ⟨"#address-cells", .cells [2]⟩] [],
           .mk "lpc1" [⟨"compatible", .strings ["ibm,power8-lpc"]⟩, ⟨"primary", .cells []⟩] []])
      = some ([0], .mk "lpc0" [⟨"compatible", .strings ["ibm,power8-lpc"]⟩, ⟨"#address-cells", .cells [2]⟩] []) :=
  ⟨claim_C4.1 "lpc0" "lpc1" "lpc2" _ _ _ (by decide) (by decide) (by decide)
      (by decide) (by decide) (by decide),
   claim_C4.2 "lpc0" _ _ (by decide) (by decide)⟩

/-- Claim C5: with a first chip `c` enumerated, `astbmc_fixup_psi_bar`
performs no write exactly when the read fails (reported, unit returns) or
the read value has bit 0 set; otherwise it writes the fixed constant
0x3fffe80000001 to the same register of the same chip — a write occurs
iff the read succeeds with bit 0 clear — and since the constant has bit 0
set, a rerun that reads back the written value performs no write. -/
theorem claim_C5 (chips : List ProcChip) (c : ProcChip)
    (xread : Nat → Nat → Option Nat) (hcf : next_chip_first chips = some c) :
    (xread c.id PSI_BAR_XSCOM_ADDR = none →
      astbmc_fixup_psi_bar chips xread
        = (.readError, [.rd c.id PSI_BAR_XSCOM_ADDR]))
  ∧ (∀ v, xread c.id PSI_BAR_XSCOM_ADDR = some v → v % 2 = 1 →
      astbmc_fixup_psi_bar chips xread
        = (.alreadyConfigured, [.rd c.id PSI_BAR_XSCOM_ADDR]))
  ∧ (∀ v, xread c.id PSI_BAR_XSCOM_ADDR = some v → v % 2 = 0 →
      astbmc_fixup_psi_bar chips xread
        = (.wrote, [.rd c.id PSI_BAR_XSCOM_ADDR,
                    .wr c.id PSI_BAR_XSCOM_ADDR PSI_BAR_VALUE]))
  ∧ ((astbmc_fixup_psi_bar chips xread).2.any isWriteOp = true ↔
      ∃ v, xread c.id PSI_BAR_XSCOM_ADDR = some v ∧ v % 2 = 0)
  ∧ astbmc_fixup_psi_bar chips (fun _ _ => some PSI_BAR_VALUE)
      = (.alreadyConfigured, [.rd c.id PSI_BAR_XSCOM_ADDR]) := by
  refine ⟨?_, ?_, ?_, ?_, ?_⟩
  · intro hr; simp [astbmc_fixup_psi_bar, hcf, hr]
  · intro v hr hv; simp [astbmc_fixup_psi_bar, hcf, hr, hv]
  · intro v hr hv; simp [astbmc_fixup_psi_bar, hcf, hr, hv]
  · constructor
    · intro hw
      cases hr : xread c.id PSI_BAR_XSCOM_ADDR with
      | none => simp [astbmc_fixup_psi_bar, hcf, hr, isWriteOp] at hw
      | some v =>
        rcases Nat.mod_two_eq_zero_or_one v with hv | hv
        · exact ⟨v, rfl, hv⟩
        · simp [astbmc_fixup_psi_bar, hcf, hr, hv, isWriteOp] at hw
    · rintro ⟨v, hr, hv⟩
      simp [astbmc_fixup_psi_bar, hcf, hr, hv, isWriteOp]
  · have hv : PSI_BAR_VALUE % 2 = 1 := by decide
    simp [astbmc_fixup_psi_bar, hcf, hv]

/-- Claim C5 (witness): at the single-chip registry — a read returning 0
(bit 0 clear) triggers the write of the fixed constant, and a rerun
reading back that constant performs no write. -/
theorem claim_C5_witness :
    astbmc_fixup_psi_bar sampleChips (fun _ _ => some 0)
      = (.wrote, [.rd 0 PSI_BAR_XSCOM_ADDR,
                  .wr 0 PSI_BAR_XSCOM_ADDR PSI_BAR_VALUE])
  ∧ astbmc_fixup_psi_bar sampleChips (fun _ _ => some PSI_BAR_VALUE)
      = (.alreadyConfigured, [.rd 0 PSI_BAR_XSCOM_ADDR]) :=
  ⟨(claim_C5 sampleChips ⟨0, [0]⟩ (fun _ _ => some 0) rfl).2.2.1 0 rfl rfl,
   (claim_C5 sampleChips ⟨0, [0]⟩ (fun _ _ => some 0) rfl).2.2.2.2⟩

/-- Claim C6: on a bus node with no "ns16550"-compatible direct child,
`astbmc_fixup_dt_uart` appends exactly one child, named for the fixed I/O
base, whose properties are exactly: reg = {1 (I/O), 0x3f8, 8};
compatible = ["ns16550", "pnpPNP,501"]; clock-frequency 1843200;
current-speed 115200; device_type "serial"; ibm,irq-chip-id = the id of
the chip owning the bus node. -/
theorem claim_C6 (chipId : Nat) (nm : String) (ps : List DtProp)
    (cs : List DtNode)
    (h : cs.any (fun c => dt_node_is_compatible c "ns16550") = false) :
    astbmc_fixup_dt_uart chipId (.mk nm ps cs)
      = .mk nm ps (cs ++
          [.mk "serial@i3f8"
            [⟨"reg", .cells [1, 0x3f8, 8]⟩,
             ⟨"compatible", .strings ["ns16550", "pnpPNP,501"]⟩,
             ⟨"clock-frequency", .cells [1843200]⟩,
             ⟨"current-speed", .cells [115200]⟩,
             ⟨"device_type", .strings ["serial"]⟩,
             ⟨"ibm,irq-chip-id", .cells [chipId]⟩]
            []]) := by
  simp only [astbmc_fixup_dt_uart, DtNode.children, h, Bool.false_eq_true,
    if_false, ite_false]
  rfl

/-- Claim C6 (witness): the UART synthesis on a bare bus node, for chip
id 5. -/
theorem claim_C6_witness :
    astbmc_fixup_dt_uart 5 emptyLpcNode
      = .mk "lpc" []
          [.mk "serial@i3f8"
            [⟨"reg", .cells [1, 0x3f8, 8]⟩,
             ⟨"compatible", .strings ["ns16550", "pnpPNP,501"]⟩,
             ⟨"clock-frequency", .cells [1843200]⟩,
             ⟨"current-speed", .cells [115200]⟩,
             ⟨"device_type", .strings ["serial"]⟩,
             ⟨"ibm,irq-chip-id", .cells [5]⟩]
            []] :=
  claim_C6 5 "lpc" [] [] rfl

/-- Claim C7: whichever way the virtual-UART detection goes, the UART
branch of `astbmc_early_init` leaves the UART configured at the same
fixed base address 0x3f8 and IRQ 4. -/
theorem claim_C7 (vuartEnabled : Bool) :
    uartConfiguredAt (astbmc_uart_mode_step vuartEnabled) = some (0x3f8, 4) := by
  cases vuartEnabled <;> decide

/-- Claim C8: when no i2c master exists in the tree and chip 0 is
enumerated, the all-successful i2c fixup inserts under chip 0's devnode a
master whose children are exactly the two bus nodes — with distinct "reg"
values 0 and 2 matching the unit-addresses of their names — and the
port-2 bus's only child is the eeprom device whose "reg" is the
configured address 0x50, again matching its name. -/
theorem claim_C8 (chips : List ProcChip) (c : ProcChip) (t : DtNode)
    (hc : dt_tree_has_compatible "ibm,power8-i2cm" t = false)
    (hg : get_chip chips 0 = some c) :
    ∃ master b0 b2 dev,
      astbmc_fixup_dt_i2cm (fun _ => true) chips t
          = .ok (modifyAt (appendChild master) c.devnodePath t)
        ∧ master.children = [b0, b2]
        ∧ b0.nodeName = "i2c-bus@" ++ hexStr 0
        ∧ dt_find_property b0.props "reg" = some (.cells [0])
        ∧ b2.nodeName = "i2c-bus@" ++ hexStr 2
        ∧ dt_find_property b2.props "reg" = some (.cells [2])
        ∧ dt_find_property b0.props "reg" ≠ dt_find_property b2.props "reg"
        ∧ b2.children = [dev]
        ∧ dev.nodeName = "eeprom@" ++ hexStr 0x50
        ∧ dt_find_property dev.props "reg" = some (.cells [0x50]) := by
  refine ⟨i2cmMasterBuilt [i2cBus0Built c.id, i2cBus2Built c.id [eepromNodeBuilt]],
    i2cBus0Built c.id, i2cBus2Built c.id [eepromNodeBuilt], eepromNodeBuilt,
    ?_, rfl, rfl, rfl, rfl, rfl, ?_, rfl, rfl, rfl⟩
  · simp only [astbmc_fixup_dt_i2cm, hc, Bool.false_eq_true, if_false, ite_false,
      hg, dt_create_i2c_master, dt_create_i2c_bus, dt_create_i2c_device,
      if_true, ite_true]
    rfl
  · simp [i2cBus0Built, i2cBus2Built, DtNode.props, dt_find_property, List.find?]

/-- Claim C8 (witness): the subtree shape and reg/name agreement at the
concrete single-chip state. -/
theorem claim_C8_witness :
    ∃ master b0 b2 dev,
      astbmc_fixup_dt_i2cm (fun _ => true) sampleChips sampleTreeNoLpc
          = .ok (modifyAt (appendChild master) [0] sampleTreeNoLpc)
        ∧ master.children = [b0, b2]
        ∧ b0.nodeName = "i2c-bus@" ++ hexStr 0
        ∧ dt_find_property b0.props "reg" = some (.cells [0])
        ∧ b2.nodeName = "i2c-bus@" ++ hexStr 2
        ∧ dt_find_property b2.props "reg" = some (.cells [2])
        ∧ dt_find_property b0.props "reg" ≠ dt_find_property b2.props "reg"
        ∧ b2.children = [dev]
        ∧ dev.nodeName = "eeprom@" ++ hexStr 0x50
        ∧ dt_find_property dev.props "reg" = some (.cells [0x50]) :=
  claim_C8 sampleChips ⟨0, [0]⟩ sampleTreeNoLpc (by decide) rfl

/-- Claim C9: `astbmc_ipmi_power_down` hands the transport's
chassis-control primitive exactly the request it was given and relays the
primitive's result verbatim, and the warning is logged exactly when the
request differs from the expected power-down code — the unexpected code
changes neither the call nor the result. -/
theorem claim_C9 (cc : Nat → Int) (request : Nat) :
    (astbmc_ipmi_power_down cc request).calledWith = request
  ∧ (astbmc_ipmi_power_down cc request).result = cc request
  ∧ ((astbmc_ipmi_power_down cc request).warned = true ↔
      request ≠ IPMI_CHASSIS_PWR_DOWN) := by
  refine ⟨rfl, rfl, ?_⟩
  simp [astbmc_ipmi_power_down, bne_iff_ne]

/-- Claim C10: `astbmc_fixup_psi_bar` dereferences the first chip of the
registry without a null check — with an empty registry the null
dereference is reached — and with at least one chip enumerated every
register operation it performs (read and write) is scoped to that first
chip's id. -/
theorem claim_C10 (chips : List ProcChip) (xread : Nat → Nat → Option Nat) :
    (chips = [] → astbmc_fixup_psi_bar chips xread = (.nullDeref, []))
  ∧ (∀ c rest, chips = c :: rest →
      ∀ op ∈ (astbmc_fixup_psi_bar chips xread).2, xscomOpChip op = c.id) := by
  constructor
  · intro h; subst h; rfl
  · intro c rest h op hop
    subst h
    cases hr : xread c.id PSI_BAR_XSCOM_ADDR with
    | none =>
      simp [astbmc_fixup_psi_bar, next_chip_first, hr] at hop
      simp [hop, xscomOpChip]
    | some v =>
      rcases Nat.mod_two_eq_zero_or_one v with hv | hv <;>
        simp [astbmc_fixup_psi_bar, next_chip_first, hr, hv] at hop
      · rcases hop with hop | hop <;> simp [hop, xscomOpChip]
      · simp [hop, xscomOpChip]

/-- Claim C10 (witness): the empty registry reaches the null-dereference
branch, and at the single-chip registry the read operation in the trace
is scoped to chip 0. -/
theorem claim_C10_witness :
    astbmc_fixup_psi_bar [] (fun _ _ => some 0) = (.nullDeref, [])
  ∧ xscomOpChip (.rd 0 PSI_BAR_XSCOM_ADDR) = 0 :=
  ⟨(claim_C10 [] (fun _ _ => some 0)).1 rfl,
   (claim_C10 sampleChips (fun _ _ => some 1)).2 ⟨0, [0]⟩ [] rfl
     (.rd 0 PSI_BAR_XSCOM_ADDR) (by decide)⟩
